import Mathlib

/-!
Verification of the scan orchestration engine of the desktop scanner
service (sources: `src/main.ts`, `src/utils.ts`).  The TypeScript code is
shallowly embedded: pure computations (device filtering, deduplication,
sorting, scan-command construction, error classification, payload
extraction) become executable Lean functions, and the effectful parts
(the WebSocket message handlers, the timeout-versus-completion race
inside `performScan`) are modelled as explicit state transitions and
effect traces parameterised by the outcomes of the external processes.

String processing is done on `List Char` throughout, so that every
definition evaluates by kernel reduction on concrete inputs.
-/

namespace ScannerApp

/-- Substring test on character lists: does `needle` occur contiguously in
the second argument?  This is the model of JavaScript
`String.prototype.includes`. -/
def chContains (needle : List Char) : List Char → Bool
  | [] => needle.isEmpty
  | c :: t => needle.isPrefixOf (c :: t) || chContains needle t

/-- Model of `hay.includes(needle)` on strings. -/
def hasSubstr (hay needle : String) : Bool := chContains needle.toList hay.toList

/-- Normalized device record, `ScannerDevice` of utils.ts lines 3-8. -/
structure ScannerDevice where
  id : String
  name : String
  model : String
  rawInfo : String
deriving DecidableEq

/-- Test `rawInfo.includes('"Source":"WIA"')`, the WIA-origin sniff used at
main.ts lines 206-207, 226-227 and 234. -/
def isWIA (s : ScannerDevice) : Bool := hasSubstr s.rawInfo "\"Source\":\"WIA\""

/-- Predicate of the filter at main.ts line 200:
`s && s.id && s.name && s.rawInfo && s.rawInfo !== '{}'` (truthiness of a
string is non-emptiness; the last literal is the two-character string of
an opening and a closing curly bracket). -/
def isValidScanner (s : ScannerDevice) : Bool :=
  s.id != "" && s.name != "" && s.rawInfo != "" && s.rawInfo != "\x7b\x7d"

/-- Filter step of main.ts line 200. -/
def filterValid (ss : List ScannerDevice) : List ScannerDevice :=
  ss.filter isValidScanner

/-- One step of the `reduce` at main.ts lines 201-215: find the first
already-kept scanner with the same `name`; when found, replace it exactly
when the new record is WIA-origin and the kept one is not (otherwise drop
the new record); when not found, append the new record. -/
def insertScanner : List ScannerDevice → ScannerDevice → List ScannerDevice
  | [], scanner => [scanner]
  | s :: rest, scanner =>
    if s.name = scanner.name then
      (if isWIA scanner && !isWIA s then scanner else s) :: rest
    else
      s :: insertScanner rest scanner

/-- Whole deduplication `reduce` of main.ts lines 201-215. -/
def dedupByName (ss : List ScannerDevice) : List ScannerDevice :=
  ss.foldl insertScanner []

/-- Value of the `validScanners` constant of main.ts lines 199-215. -/
def validScanners (ss : List ScannerDevice) : List ScannerDevice :=
  dedupByName (filterValid ss)

/-- Synthetic placeholder device of main.ts lines 217-222. -/
def demoScanner : ScannerDevice :=
  { id := "demo-scanner"
    name := "Demo Scanner"
    model := "Demo Model (No physical scanner found)"
    rawInfo := "Demo scanner for testing when no physical scanner is available" }

/-- Placeholder substitution of main.ts lines 217-222: keep the valid list
when non-empty, otherwise the singleton placeholder list. -/
def deviceListOf (valid : List ScannerDevice) : List ScannerDevice :=
  if valid.length > 0 then valid else [demoScanner]

/-- Lexicographic (code-point) comparison on character lists; the model of
the name comparison `a.name.localeCompare(b.name)` in the sort comparator
(locale collation is approximated by code-point order). -/
def charsLe : List Char → List Char → Bool
  | [], _ => true
  | _ :: _, [] => false
  | a :: as, b :: bs =>
    if a.toNat < b.toNat then true
    else if b.toNat < a.toNat then false
    else charsLe as bs

/-- Name order used by the sort comparator. -/
def nameLe (a b : String) : Bool := charsLe a.toList b.toList

/-- Sort comparator of main.ts lines 225-230 as a boolean `≤` test:
WIA-origin devices strictly first, ties within an origin class broken by
name. -/
def scannerLE (a b : ScannerDevice) : Bool :=
  if isWIA a ≠ isWIA b then isWIA a else nameLe a.name b.name

/-- Model of `deviceList.sort(comparator)` (main.ts lines 225-230);
JavaScript sort is stable, modelled by stable insertion sort over the
comparator preorder. -/
def sortScanners (l : List ScannerDevice) : List ScannerDevice :=
  l.insertionSort (fun a b => scannerLE a b = true)

/-- Device list carried by every `scanners-list` response (main.ts lines
198-247): filter, deduplicate, demo-placeholder fallback, sort. -/
def scannersListData (scanners : List ScannerDevice) : List ScannerDevice :=
  sortScanners (deviceListOf (validScanners scanners))

/-- Outbound protocol envelopes (main.ts lines 169-174, 244-247 and
285-291). -/
inductive Envelope where
  | scannersList (data : List ScannerDevice)
  | scanComplete (base64 : String)
  | errorEnv (msg : String)
deriving DecidableEq

/-- Per-connection coordinator state attached to the socket (main.ts lines
156-167): the logging fingerprint and the throttle timestamp. -/
structure Session where
  scannerCache : String
  lastScannerRequest : Nat
deriving DecidableEq

/-- Initial session state (main.ts lines 166-167). -/
def initSession : Session := { scannerCache := "", lastScannerRequest := 0 }

/-- Throttle window constant of main.ts line 176, in milliseconds. -/
def SCANNER_REQUEST_THROTTLE : Nat := 2000

/-- Join a list of strings with comma separators (`Array.prototype.join`). -/
def joinComma : List String → String
  | [] => ""
  | [x] => x
  | x :: y :: rest => x ++ "," ++ joinComma (y :: rest)

/-- Join a list of strings with single-space separators. -/
def joinSpace : List String → String
  | [] => ""
  | [x] => x
  | x :: y :: rest => x ++ " " ++ joinSpace (y :: rest)

/-- Fingerprint of a device list (main.ts lines 233-236). -/
def scannerKey (devices : List ScannerDevice) : String :=
  joinComma (devices.map fun s =>
    s.id ++ ":" ++ (if isWIA s then "WIA" else "OTHER"))

/-- Branch `get-scanners` of the message handler (main.ts lines 188-252) as
a function of the session state, the current `Date.now()` value and the
`listScanners()` result; returns the updated session and the envelopes
sent.  A request inside the throttle window returns before touching the
state or sending anything; an honored request stamps the timestamp,
refreshes the fingerprint and sends exactly one `scanners-list`
envelope. -/
def handleGetScanners (sess : Session) (now : Nat) (scanners : List ScannerDevice) :
    Session × List Envelope :=
  if now - sess.lastScannerRequest < SCANNER_REQUEST_THROTTLE then
    (sess, [])
  else
    let sortedDevices := scannersListData scanners
    ({ lastScannerRequest := now, scannerCache := scannerKey sortedDevices },
     [Envelope.scannersList sortedDevices])

/-- Single-quote character (written by code point to keep source lines
free of stray quote characters). -/
def squoteChar : Char := '\x27'

/-- Single-quote character as a one-character string. -/
def squote : String := String.mk [squoteChar]

/-- Split a character list at its first single quote: the characters
before the quote and the characters after it, or `none` when no quote
occurs.  The greedy one-or-more non-quote group of the SANE device-line
pattern consumes exactly the first component. -/
def splitAtQuote : List Char → Option (List Char × List Char)
  | [] => none
  | c :: cs =>
    if c = squoteChar then some ([], cs)
    else (splitAtQuote cs).map fun p => (c :: p.1, p.2)

/-- Attempt to match the device-line pattern of utils.ts line 13 with the
match starting exactly at the head of `cs`: the literal lead-in of the
word device, a space and a backtick, then one or more non-quote
characters (the id), a closing quote, the literal text of is-a framed by
spaces, and a non-empty remainder (the description). -/
def matchSaneFrom (cs : List Char) : Option (String × String) :=
  if ("device `".toList).isPrefixOf cs then
    match splitAtQuote (cs.drop 8) with
    | none => none
    | some (idChars, afterQuote) =>
      if idChars = [] then none
      else if (" is a ".toList).isPrefixOf afterQuote then
        if afterQuote.drop 6 = [] then none
        else some (String.mk idChars, String.mk (afterQuote.drop 6))
      else none
  else none

/-- Leftmost match of the device-line pattern anywhere in the line: the
semantics of the unanchored `line.match(...)` call of utils.ts line 13. -/
def findSaneMatch : List Char → Option (String × String)
  | [] => none
  | c :: cs =>
    match matchSaneFrom (c :: cs) with
    | some r => some r
    | none => findSaneMatch cs

/-- Split on a separator character, keeping empty segments, as JavaScript
`String.prototype.split` with a one-character separator does. -/
def splitOnCharAux (sep : Char) : List Char → List Char → List (List Char)
  | [], acc => [acc.reverse]
  | c :: cs, acc =>
    if c = sep then acc.reverse :: splitOnCharAux sep cs []
    else splitOnCharAux sep cs (c :: acc)

/-- String-level split on a one-character separator. -/
def splitOnChar (sep : Char) (s : String) : List String :=
  (splitOnCharAux sep s.toList []).map String.mk

/-- Drop leading and trailing whitespace from a character list. -/
def trimChars (l : List Char) : List Char :=
  ((l.dropWhile Char.isWhitespace).reverse.dropWhile Char.isWhitespace).reverse

/-- Model of `String.prototype.trim`. -/
def strTrim (s : String) : String := String.mk (trimChars s.toList)

/-- Model of `String.prototype.toLowerCase`. -/
def strLower (s : String) : String := String.mk (s.toList.map Char.toLower)

/-- Function `parseSANEDeviceLine` of utils.ts lines 10-30: match the
device-line pattern, split the description on spaces, and assemble the
record with the name being manufacturer, a space, and the model. -/
def parseSANEDeviceLine (line : String) : Option ScannerDevice :=
  match findSaneMatch line.toList with
  | none => none
  | some (deviceId, description) =>
    let modelParts := splitOnChar ' ' description
    let manufacturer := modelParts.headD ""
    let model := joinSpace (modelParts.drop 1)
    some { id := deviceId
           name := manufacturer ++ " " ++ model
           model := model
           rawInfo := line }

/-- Raw record from the Windows enumeration helper after `JSON.parse`
succeeded (the JSON object fields used at utils.ts lines 46-51;
`stringified` stands for `JSON.stringify(device)`). -/
structure WinRawDevice where
  deviceID : String
  caption : String
  description : Option String
  stringified : String
deriving DecidableEq

/-- Mapping of utils.ts lines 46-51; a missing or empty description is
falsy, so `Description || Caption` falls back to the caption. -/
def winDeviceToScanner (d : WinRawDevice) : ScannerDevice :=
  { id := d.deviceID
    name := d.caption
    model :=
      match d.description with
      | some s => if s = "" then d.caption else s
      | none => d.caption
    rawInfo := d.stringified }

/-- Outcome of the Windows listing helper process (utils.ts lines
36-56). -/
inductive WinListOutcome where
  | execError (msg : String)
  | parseError
  | parsed (devices : List WinRawDevice)

/-- Windows branch of `listScanners` (utils.ts lines 34-56): an exec error
or a JSON-parse error resolves to the empty list, a parsed array maps
each record to a `ScannerDevice`. -/
def listScannersWin : WinListOutcome → List ScannerDevice
  | .execError _ => []
  | .parseError => []
  | .parsed ds => ds.map winDeviceToScanner

/-- Outcome of the SANE listing path (utils.ts lines 58-96): the version
probe failing, the listing command failing, or the listing command
succeeding with the given standard output. -/
inductive SaneListOutcome where
  | versionError
  | listError
  | output (stdout : String)

/-- Line selection of utils.ts lines 82-84: split the trimmed output on
newlines and keep the lines whose trimmed length is positive. -/
def saneLines (stdout : String) : List String :=
  (splitOnChar '\n' (strTrim stdout)).filter fun l => 0 < (strTrim l).length

/-- SANE branch of `listScanners` (utils.ts lines 58-96): any process
failure resolves to the empty list; empty output or the
no-scanners-identified notice resolves to the empty list; otherwise each
non-blank line is parsed and unparsable lines are discarded. -/
def listScannersSane : SaneListOutcome → List ScannerDevice
  | .versionError => []
  | .listError => []
  | .output stdout =>
    let out := strTrim stdout
    if out = "" || hasSubstr out "No scanners were identified" then []
    else (saneLines stdout).filterMap parseSANEDeviceLine

/-- Replacement for one quote character in `escapeShellArg`: quote,
backslash, quote, quote. -/
def escapeQuoteSeq : List Char := [squoteChar, '\\', squoteChar, squoteChar]

/-- Function `escapeShellArg` of utils.ts lines 100-103: wrap the argument
in single quotes, replacing every embedded single quote by
`escapeQuoteSeq`. -/
def escapeShellArg (arg : String) : String :=
  String.mk ([squoteChar] ++
    (arg.toList.map fun c => if c = squoteChar then escapeQuoteSeq else [c]).flatten ++
    [squoteChar])

/-- SANE branch of `constructScanCommand` (utils.ts lines 105-138): the
scanimage invocation with fixed flags writing to the given output path.
(The win32 branch builds a PowerShell WIA invocation whose text no claim
inspects; platform dispatch is on `process.platform`.) -/
def constructScanCommand (deviceId outputPath : String) : String :=
  joinSpace
    ["scanimage",
     "-d " ++ escapeShellArg deviceId,
     "--format=jpeg",
     "--mode Color",
     "--resolution 300",
     "--progress",
     "--output-file=" ++ escapeShellArg outputPath]

/-- Result of the scan child process as delivered to the `exec` callback
(main.ts line 92): `execError` is `none` exactly when the process exited
with code 0, and otherwise carries `error.message`. -/
structure ProcResult where
  execError : Option String
  stdout : String
  stderr : String
deriving DecidableEq

/-- Settlement of the `performScan` promise: `resolve` with a payload or
`reject` with an error message. -/
inductive ScanOutcome where
  | resolved (base64 : String)
  | rejected (msg : String)
deriving DecidableEq

/-- Error text selection of main.ts line 99:
`stderr.toString() || error.message`. -/
def scanErrorText (r : ProcResult) (errMsg : String) : String :=
  if r.stderr = "" then errMsg else r.stderr

/-- Substring classification of the scan error text (main.ts lines
102-110). -/
def classifyScanError (errorMessage : String) : String :=
  if hasSubstr errorMessage "Result code: 0x80210015" then
    "Scanner is in use by another application"
  else if hasSubstr errorMessage "Result code: 0x80210006" then
    "No document in scanner"
  else if hasSubstr errorMessage "Access is denied" then
    "Access denied - please run as administrator"
  else errorMessage

/-- Character class of the payload pattern: word characters plus the
plus sign, the slash and the equals sign. -/
def isWordB64Char (c : Char) : Bool :=
  c.isAlphanum || c = '_' || c = '+' || c = '/' || c = '='

/-- Literal marker of the payload pattern of main.ts line 116. -/
def b64Marker : List Char := "data:image/jpeg;base64,".toList

/-- Attempt the payload pattern with the match starting exactly at the
head: the literal marker followed by a greedy non-empty run of payload
characters. -/
def matchB64From (cs : List Char) : Option String :=
  if b64Marker.isPrefixOf cs then
    let run := (cs.drop b64Marker.length).takeWhile isWordB64Char
    if run = [] then none else some (String.mk (b64Marker ++ run))
  else none

/-- Leftmost match of the payload pattern anywhere in the output (the
semantics of `output.match(...)` at main.ts line 116). -/
def findB64 : List Char → Option String
  | [] => none
  | c :: cs =>
    match matchB64From (c :: cs) with
    | some r => some r
    | none => findB64 cs

/-- String-level payload extraction. -/
def extractBase64 (output : String) : Option String := findB64 output.toList

/-- Body of the `exec` callback of `performScan` (main.ts lines 92-126):
on process failure classify the error text; on success extract the
payload token from the trimmed standard output, rejecting when no
well-formed token occurs. -/
def scanCallbackOutcome (r : ProcResult) : ScanOutcome :=
  match r.execError with
  | some msg => .rejected (classifyScanError (scanErrorText r msg))
  | none =>
    match extractBase64 (strTrim r.stdout) with
    | none => .rejected "Invalid image data received from scanner"
    | some b => .resolved b

/-- Events racing inside the `performScan` promise (main.ts lines 80-96):
the 120-second timer firing, or the process-completion callback running
with the given process result.  In real time the timer fires first
exactly when the process exceeds the 120-second wall clock. -/
inductive ScanEvent where
  | timerFire
  | procComplete (r : ProcResult)

/-- State shared by the two callbacks: the once-only `isHandled` flag, the
liveness of the timer (false once fired or cleared), and the trace of
settlements performed so far (every `resolve` or `reject` call is
appended). -/
structure ScanPromiseState where
  isHandled : Bool
  timerActive : Bool
  emitted : List ScanOutcome
deriving DecidableEq

/-- State of the promise when `performScan` starts the race (main.ts lines
80-91). -/
def initScanPromise : ScanPromiseState :=
  { isHandled := false, timerActive := true, emitted := [] }

/-- Rejection message of the timeout branch (main.ts line 87). -/
def timeoutMessage : String := "Scanner timeout - no response from device"

/-- One event of the race (main.ts lines 83-96 and 92-126).  A fired or
cleared timer never fires again; the completion callback first clears the
timer, and each callback returns without settling when `isHandled` is
already set, otherwise sets it and settles exactly once. -/
def stepScan (s : ScanPromiseState) (e : ScanEvent) : ScanPromiseState :=
  match e with
  | .timerFire =>
    if !s.timerActive then s
    else if s.isHandled then { s with timerActive := false }
    else
      { isHandled := true, timerActive := false,
        emitted := s.emitted ++ [.rejected timeoutMessage] }
  | .procComplete r =>
    if s.isHandled then { s with timerActive := false }
    else
      { isHandled := true, timerActive := false,
        emitted := s.emitted ++ [scanCallbackOutcome r] }

/-- Run a sequence of race events from the initial promise state. -/
def runScanEvents (events : List ScanEvent) : ScanPromiseState :=
  events.foldl stepScan initScanPromise

/-- Outcome of the demo-image preparation (main.ts lines 26-54 and 61-63):
the base64-encoded bytes of the bundled sample image, or a read/copy
failure. -/
inductive DemoOutcome where
  | ok (base64Data : String)
  | failed
deriving DecidableEq

/-- Observable effects of the scan request path.  (`listScannersCall`
spawns an external listing process; `execScanProcess` spawns the scan
child process; `demoImageRead` reads the bundled sample image from disk;
`outputFileRead` would be a read-back of the scan output file — the
embedded code never performs one.) -/
inductive ScanEffect where
  | listScannersCall
  | demoImageRead
  | execScanProcess (cmd : String)
  | outputFileRead (path : String)
deriving DecidableEq

/-- Function `performScan` (main.ts lines 57-138) as an effect trace plus
settled outcome, as a function of the demo-image oracle and the scan
process result (the race with the timer is modelled by `runScanEvents`;
here the process-completion outcome is taken).  The sentinel id
short-circuits to the demo image; every other id runs
`constructScanCommand(deviceId, 'unused')` (main.ts line 78) and settles
through `scanCallbackOutcome`; no branch reads the scan output file. -/
def performScanModel (deviceId : String) (demo : DemoOutcome) (proc : ProcResult) :
    List ScanEffect × ScanOutcome :=
  if deviceId = "demo-scanner" then
    match demo with
    | .ok b => ([.demoImageRead], .resolved ("data:image/jpeg;base64," ++ b))
    | .failed => ([.demoImageRead], .rejected "Failed to create demo scan")
  else
    ([.execScanProcess (constructScanCommand deviceId "unused")],
     scanCallbackOutcome proc)

/-- WIA device-id format marker tested at main.ts line 265. -/
def wiaGuid : String := "6BDD1FC6-810F-11D0-BEC7-08002BE2092F"

/-- Predicate of the `scanners.find` call at main.ts lines 266-269: the
record is WIA-origin and reports status Connected. -/
def isConnectedWIA (d : ScannerDevice) : Bool :=
  hasSubstr d.rawInfo "\"Source\":\"WIA\"" && hasSubstr d.rawInfo "\"Status\":\"Connected\""

/-- Device-id substitution of main.ts lines 262-274: an id without the WIA
format marker is replaced by the id of the first connected WIA device of
the fresh enumeration, when one exists. -/
def resolveScanDeviceId (deviceId : String) (scanners : List ScannerDevice) : String :=
  if hasSubstr deviceId wiaGuid then deviceId
  else
    match scanners.find? isConnectedWIA with
    | some d => d.id
    | none => deviceId

/-- Inner catch classification of main.ts lines 296-308. -/
def classifyInnerScanError (errorStr : String) : String :=
  if hasSubstr errorStr "Access is denied" then
    "Access denied. Please run the application as administrator."
  else if hasSubstr errorStr "Device not found" ||
      hasSubstr errorStr "No compatible WIA scanner" then
    "Scanner not found or not compatible. Please check if it is properly connected."
  else if hasSubstr errorStr "Device is busy" ||
      hasSubstr errorStr "being used by another application" then
    "Scanner is busy or in use by another application. Please wait and try again."
  else if hasSubstr errorStr "empty file" then
    "Scanner failed to produce a valid image. Please check if there is a document in the scanner."
  else
    "Scanning failed: " ++ errorStr

/-- Outer catch classification of main.ts lines 310-324 (matching on the
lowercased message). -/
def classifyOuterScanError (errorMessage : String) : String :=
  let lower := strLower errorMessage
  if hasSubstr lower "access" || hasSubstr lower "permission" then
    "Scanner access denied. Please ensure you have administrator privileges or proper permissions."
  else if hasSubstr lower "busy" then
    "Scanner is busy or in use by another application."
  else if hasSubstr lower "not found" || hasSubstr lower "no scanner" then
    "Scanner not found. Please check if it is properly connected and powered on."
  else
    "Scanning failed: " ++ errorMessage ++ ". Please check scanner connection and try again."

/-- Branch `start-scan` of the message handler (main.ts lines 254-325) as
effects performed plus envelopes sent, as a function of the request
`deviceId` field (`none` models an absent field), the result of the fresh
enumeration, and the `performScan` oracles.  A missing or empty id throws
before the enumeration and is classified by the outer catch; otherwise
the handler enumerates, substitutes the device id, runs `performScan`,
and sends either the completion envelope or a classified error
envelope.  The handler never closes the connection. -/
def handleStartScan (deviceId : Option String) (scanners : List ScannerDevice)
    (demo : DemoOutcome) (proc : ProcResult) : List ScanEffect × List Envelope :=
  match deviceId with
  | none => ([], [.errorEnv (classifyOuterScanError "No device ID provided")])
  | some did =>
    if did = "" then
      ([], [.errorEnv (classifyOuterScanError "No device ID provided")])
    else
      let scanDeviceId := resolveScanDeviceId did scanners
      let pr := performScanModel scanDeviceId demo proc
      match pr.2 with
      | .resolved b =>
        if b = "" then
          (ScanEffect.listScannersCall :: pr.1,
           [.errorEnv (classifyInnerScanError "Scanner did not return any data")])
        else
          (ScanEffect.listScannersCall :: pr.1, [.scanComplete b])
      | .rejected msg =>
        (ScanEffect.listScannersCall :: pr.1,
         [.errorEnv (classifyInnerScanError msg)])

/-- Records of a list bearing a given display name; used to state which
record the deduplication step retains for a name. -/
def nameFilter (n : String) (l : List ScannerDevice) : List ScannerDevice :=
  l.filter fun d => d.name == n

/-- Example fallback-origin (PnP) record; shares its display name with
`wiaTwin`. -/
def pnpTwin : ScannerDevice :=
  { id := "pnp-7", name := "Canon Scanner", model := "Canon",
    rawInfo := "\x7b\"Source\":\"PnP\"\x7d" }

/-- Example WIA-origin record; shares its display name with `pnpTwin`. -/
def wiaTwin : ScannerDevice :=
  { id := "wia-7", name := "Canon Scanner", model := "Canon",
    rawInfo := "\x7b\"Source\":\"WIA\"\x7d" }

/-- Example WIA-origin record reporting status Connected, as produced by
the Windows enumeration helper. -/
def wiaConnectedDev : ScannerDevice :=
  { id := "wia-1", name := "WIA Scanner", model := "WIA Model",
    rawInfo := "\x7b\"Source\":\"WIA\",\"Status\":\"Connected\"\x7d" }

/-! ## Helper lemmas -/

theorem stepScan_of_handled (s : ScanPromiseState) (e : ScanEvent)
    (h : s.isHandled = true) :
    (stepScan s e).emitted = s.emitted ∧ (stepScan s e).isHandled = true := by
  cases e with
  | timerFire =>
    unfold stepScan
    by_cases ht : s.timerActive <;> simp [ht, h]
  | procComplete r =>
    unfold stepScan
    simp [h]

theorem foldl_stepScan_of_handled (es : List ScanEvent) (s : ScanPromiseState)
    (h : s.isHandled = true) :
    (es.foldl stepScan s).emitted = s.emitted := by
  induction es generalizing s with
  | nil => rfl
  | cons e es ih =>
    have hs := stepScan_of_handled s e h
    rw [List.foldl_cons, ih _ hs.2, hs.1]

/-! ## C1: timeout versus process completion -/

/-- C1.  Inside `performScan`, the 120-second timer and the process
completion callback race on the once-only `isHandled` flag: whichever
event occurs first determines the unique settlement of the promise, and
every later event is a no-op.  When the timer fires first (the process
exceeded the wall-clock limit) the trace of settlements is exactly one
rejection with the timeout message, whatever the process later does; when
the process completes first, the trace is exactly its classified outcome
and a later timer expiry adds nothing. -/
theorem scan_timeout_race (r : ProcResult) (es : List ScanEvent) :
    (runScanEvents (ScanEvent.timerFire :: es)).emitted =
      [ScanOutcome.rejected timeoutMessage]
    ∧ (runScanEvents (ScanEvent.procComplete r :: es)).emitted =
      [scanCallbackOutcome r] := by
  constructor
  · unfold runScanEvents
    rw [List.foldl_cons]
    have h1 : stepScan initScanPromise ScanEvent.timerFire =
        { isHandled := true, timerActive := false,
          emitted := [ScanOutcome.rejected timeoutMessage] } := by
      simp [stepScan, initScanPromise]
    rw [h1, foldl_stepScan_of_handled _ _ rfl]
  · unfold runScanEvents
    rw [List.foldl_cons]
    have h1 : stepScan initScanPromise (ScanEvent.procComplete r) =
        { isHandled := true, timerActive := false,
          emitted := [scanCallbackOutcome r] } := by
      simp [stepScan, initScanPromise]
    rw [h1, foldl_stepScan_of_handled _ _ rfl]

/-! ## C2: get-scanners throttling -/

/-- C2.  A `get-scanners` request arriving strictly less than 2000
milliseconds after the last honored request on the same connection
produces no envelope at all and leaves the session state (in particular
the throttle timestamp) untouched, so the window keeps being measured
from the last honored request; the first request of the pair is answered
with exactly one `scanners-list` envelope. -/
theorem get_scanners_throttle (sess : Session) (n1 n2 : Nat)
    (sc1 sc2 : List ScannerDevice)
    (h1 : SCANNER_REQUEST_THROTTLE ≤ n1 - sess.lastScannerRequest)
    (h2 : n2 - n1 < SCANNER_REQUEST_THROTTLE) :
    (handleGetScanners sess n1 sc1).2 = [Envelope.scannersList (scannersListData sc1)]
    ∧ (handleGetScanners sess n1 sc1).1.lastScannerRequest = n1
    ∧ handleGetScanners (handleGetScanners sess n1 sc1).1 n2 sc2 =
        ((handleGetScanners sess n1 sc1).1, []) := by
  have hfirst : handleGetScanners sess n1 sc1 =
      ({ lastScannerRequest := n1, scannerCache := scannerKey (scannersListData sc1) },
       [Envelope.scannersList (scannersListData sc1)]) := by
    unfold handleGetScanners
    rw [if_neg (by omega)]
  refine ⟨by rw [hfirst], by rw [hfirst], ?_⟩
  rw [hfirst]
  unfold handleGetScanners
  rw [if_pos (by simpa using h2)]

/-- Witness for C2 at concrete inputs: a fresh session, a first request at
5000 ms and a second at 6000 ms. -/
theorem get_scanners_throttle_witness :
    (handleGetScanners initSession 5000 []).2 =
      [Envelope.scannersList (scannersListData [])]
    ∧ (handleGetScanners initSession 5000 []).1.lastScannerRequest = 5000
    ∧ handleGetScanners (handleGetScanners initSession 5000 []).1 6000 [] =
        ((handleGetScanners initSession 5000 []).1, []) :=
  get_scanners_throttle initSession 5000 6000 [] [] (by decide) (by decide)

/-! ## C10: start-scan without a device id -/

/-- C10.  A `start-scan` request whose `deviceId` field is absent or the
empty string throws before the enumeration; the outer catch classifies
the message and sends exactly one error envelope.  The effect trace is
empty: no enumeration, no demo-image read, no scan process (and the
handler never closes the connection). -/
theorem start_scan_missing_device_id (dOpt : Option String)
    (scanners : List ScannerDevice) (demo : DemoOutcome) (proc : ProcResult)
    (h : dOpt = none ∨ dOpt = some "") :
    handleStartScan dOpt scanners demo proc =
      ([], [Envelope.errorEnv
        "Scanning failed: No device ID provided. Please check scanner connection and try again."]) := by
  have hc : classifyOuterScanError "No device ID provided" =
      "Scanning failed: No device ID provided. Please check scanner connection and try again." := by
    decide
  rcases h with h | h <;> subst h <;> simp [handleStartScan, hc]

/-- Witness for C10 at the empty-string device id. -/
theorem start_scan_missing_device_id_witness :
    handleStartScan (some "") [] DemoOutcome.failed ⟨none, "", ""⟩ =
      ([], [Envelope.errorEnv
        "Scanning failed: No device ID provided. Please check scanner connection and try again."]) :=
  start_scan_missing_device_id (some "") [] DemoOutcome.failed ⟨none, "", ""⟩ (Or.inr rfl)

/-! ## Enumerator pipeline lemmas -/

theorem mem_insertScanner {x s : ScannerDevice} :
    ∀ {acc : List ScannerDevice}, x ∈ insertScanner acc s → x ∈ acc ∨ x = s := by
  intro acc
  induction acc with
  | nil =>
    intro h
    simp [insertScanner] at h
    exact Or.inr h
  | cons a rest ih =>
    intro h
    unfold insertScanner at h
    by_cases hn : a.name = s.name
    · rw [if_pos hn] at h
      by_cases hw : (isWIA s && !isWIA a) = true
      · rw [if_pos hw] at h
        rcases List.mem_cons.1 h with h | h
        · exact Or.inr h
        · exact Or.inl (List.mem_cons_of_mem a h)
      · rw [if_neg hw] at h
        rcases List.mem_cons.1 h with h | h
        · exact Or.inl (by rw [h]; exact List.mem_cons_self a rest)
        · exact Or.inl (List.mem_cons_of_mem a h)
    · rw [if_neg hn] at h
      rcases List.mem_cons.1 h with h | h
      · exact Or.inl (by rw [h]; exact List.mem_cons_self a rest)
      · rcases ih h with h | h
        · exact Or.inl (List.mem_cons_of_mem a h)
        · exact Or.inr h

theorem mem_foldl_insertScanner {x : ScannerDevice} :
    ∀ (l acc : List ScannerDevice), x ∈ l.foldl insertScanner acc → x ∈ acc ∨ x ∈ l := by
  intro l
  induction l with
  | nil => intro acc h; exact Or.inl h
  | cons s rest ih =>
    intro acc h
    rw [List.foldl_cons] at h
    rcases ih (insertScanner acc s) h with h | h
    · rcases mem_insertScanner h with h | h
      · exact Or.inl h
      · exact Or.inr (h ▸ List.mem_cons_self s rest)
    · exact Or.inr (List.mem_cons_of_mem s h)

theorem mem_dedupByName {x : ScannerDevice} {l : List ScannerDevice}
    (h : x ∈ dedupByName l) : x ∈ l := by
  rcases mem_foldl_insertScanner l [] h with h | h
  · exact absurd h (List.not_mem_nil x)
  · exact h

theorem mem_sortScanners {x : ScannerDevice} {l : List ScannerDevice} :
    x ∈ sortScanners l ↔ x ∈ l :=
  (List.perm_insertionSort _ l).mem_iff

theorem sortScanners_length (l : List ScannerDevice) :
    (sortScanners l).length = l.length :=
  (List.perm_insertionSort _ l).length_eq

theorem deviceListOf_ne_nil (valid : List ScannerDevice) : deviceListOf valid ≠ [] := by
  unfold deviceListOf
  by_cases h : valid.length > 0
  · rw [if_pos h]
    exact List.length_pos.1 h
  · rw [if_neg h]
    simp

theorem isValidScanner_spec {d : ScannerDevice} (h : isValidScanner d = true) :
    d.id ≠ "" ∧ d.name ≠ "" ∧ d.rawInfo ≠ "" ∧ d.rawInfo ≠ "\x7b\x7d" := by
  simpa [isValidScanner, Bool.and_eq_true, bne_iff_ne, and_assoc] using h

/-! ## C5: empty enumeration yields exactly the placeholder -/

/-- C5.  When the post-filter, post-deduplication device set is empty, the
device list sent to the client is exactly the one synthetic placeholder
record (`demoScanner`, whose fixed fields carry the sentinel id, name and
model); and a `scanners-list` response never carries an empty device
array. -/
theorem enumeration_empty_placeholder (raw : List ScannerDevice) :
    (validScanners raw = [] → scannersListData raw = [demoScanner])
    ∧ scannersListData raw ≠ [] := by
  constructor
  · intro h
    unfold scannersListData
    rw [h]
    rfl
  · intro h
    have := sortScanners_length (deviceListOf (validScanners raw))
    rw [scannersListData] at h
    rw [h] at this
    exact deviceListOf_ne_nil (validScanners raw)
      (List.length_eq_zero.1 this.symm)

/-- Witness for C5: on an empty raw enumeration the response data is the
placeholder singleton. -/
theorem enumeration_empty_placeholder_witness :
    scannersListData [] = [demoScanner] :=
  (enumeration_empty_placeholder []).1 rfl

/-! ## C7: surfaced records are valid -/

/-- C7.  Every device record that reaches a `scanners-list` response is
either the synthetic placeholder or a raw record that passed the validity
filter (non-empty id, non-empty name, non-trivial `rawInfo`); in
particular its id and name are non-empty, and raw records failing the
filter are dropped before deduplication and never surfaced. -/
theorem surfaced_records_valid (raw : List ScannerDevice) (d : ScannerDevice)
    (h : d ∈ scannersListData raw) :
    (d = demoScanner ∨ (d ∈ raw ∧ isValidScanner d = true))
    ∧ d.id ≠ "" ∧ d.name ≠ "" := by
  rw [scannersListData, mem_sortScanners] at h
  unfold deviceListOf at h
  by_cases hl : (validScanners raw).length > 0
  · rw [if_pos hl] at h
    have hmem := mem_dedupByName h
    rw [filterValid, List.mem_filter] at hmem
    refine ⟨Or.inr hmem, (isValidScanner_spec hmem.2).1, (isValidScanner_spec hmem.2).2.1⟩
  · rw [if_neg hl] at h
    have hd : d = demoScanner := by simpa using h
    subst hd
    exact ⟨Or.inl rfl, by decide, by decide⟩

/-- Witness for C7: the placeholder surfaced for an empty enumeration has
non-empty id and name. -/
theorem surfaced_records_valid_witness :
    (demoScanner = demoScanner ∨ (demoScanner ∈ ([] : List ScannerDevice)
        ∧ isValidScanner demoScanner = true))
    ∧ demoScanner.id ≠ "" ∧ demoScanner.name ≠ "" :=
  surfaced_records_valid [] demoScanner (by decide)

/-! ## Order lemmas for the sort comparator -/

theorem charsLe_total : ∀ (a b : List Char), charsLe a b = true ∨ charsLe b a = true
  | [], _ => Or.inl rfl
  | _ :: _, [] => Or.inr rfl
  | a :: as, b :: bs => by
    simp only [charsLe]
    rcases Nat.lt_trichotomy a.toNat b.toNat with h | h | h
    · left
      rw [if_pos h]
    · have h1 : ¬a.toNat < b.toNat := by omega
      have h2 : ¬b.toNat < a.toNat := by omega
      rcases charsLe_total as bs with ih | ih
      · left
        rw [if_neg h1, if_neg h2]
        exact ih
      · right
        rw [if_neg h2, if_neg h1]
        exact ih
    · right
      rw [if_pos h]

theorem charsLe_trans :
    ∀ {a b c : List Char}, charsLe a b = true → charsLe b c = true → charsLe a c = true
  | [], _, _, _, _ => rfl
  | _ :: _, [], _, h1, _ => by simp [charsLe] at h1
  | _ :: _, _ :: _, [], _, h2 => by simp [charsLe] at h2
  | a :: as, b :: bs, c :: cs, h1, h2 => by
    simp only [charsLe] at h1 h2 ⊢
    split_ifs at h1 h2 ⊢ <;>
      first
        | rfl
        | exact charsLe_trans h1 h2
        | (exfalso; omega)

/-! The comparator preorder of `sortScanners` is total and transitive, so
Mathlib's insertion sort produces a sorted permutation. -/

instance : IsTotal ScannerDevice (fun a b => scannerLE a b = true) := by
  constructor
  intro a b
  unfold scannerLE
  cases ha : isWIA a <;> cases hb : isWIA b <;>
    simp [ha, hb, nameLe] <;> exact charsLe_total _ _

instance : IsTrans ScannerDevice (fun a b => scannerLE a b = true) := by
  constructor
  intro a b c h1 h2
  unfold scannerLE at h1 h2 ⊢
  cases ha : isWIA a <;> cases hb : isWIA b <;> cases hc : isWIA c <;>
    simp [ha, hb, hc, nameLe] at h1 h2 ⊢
  · exact charsLe_trans h1 h2
  · exact charsLe_trans h1 h2

theorem scannerLE_spec {a b : ScannerDevice} (h : scannerLE a b = true) :
    (isWIA b = true → isWIA a = true)
    ∧ (isWIA a = isWIA b → nameLe a.name b.name = true) := by
  unfold scannerLE at h
  cases ha : isWIA a <;> cases hb : isWIA b <;> simp [ha, hb] at h ⊢ <;> try exact h

/-! ## C8: ordering of every scanners-list response -/

/-- C8.  The device list of every `scanners-list` response is sorted by
the comparator of main.ts lines 225-230: every WIA-origin device precedes
every non-WIA device, and two devices in the same origin class appear in
lexicographic name order (`nameLe`, the code-point model of
`localeCompare`).  Moreover the `get-scanners` handler only ever sends
that sorted list (or, when throttled, nothing). -/
theorem scanners_list_sorted (sc : List ScannerDevice) :
    (scannersListData sc).Pairwise
      (fun a b => (isWIA b = true → isWIA a = true)
        ∧ (isWIA a = isWIA b → nameLe a.name b.name = true))
    ∧ ∀ sess now, (handleGetScanners sess now sc).2 = []
        ∨ (handleGetScanners sess now sc).2 =
            [Envelope.scannersList (scannersListData sc)] := by
  constructor
  · have hs : (scannersListData sc).Pairwise (fun a b => scannerLE a b = true) :=
      List.sorted_insertionSort _ _
    exact hs.imp fun h => scannerLE_spec h
  · intro sess now
    unfold handleGetScanners
    by_cases h : now - sess.lastScannerRequest < SCANNER_REQUEST_THROTTLE
    · rw [if_pos h]
      exact Or.inl rfl
    · rw [if_neg h]
      exact Or.inr rfl

/-! ## Deduplication lemmas -/

theorem nameFilter_nil (n : String) : nameFilter n [] = [] := rfl

theorem nameFilter_cons (n : String) (x : ScannerDevice) (l : List ScannerDevice) :
    nameFilter n (x :: l) =
      if x.name = n then x :: nameFilter n l else nameFilter n l := by
  by_cases h : x.name = n <;> simp [nameFilter, List.filter_cons, h]

theorem nameFilter_insertScanner_of_ne {n : String} {s : ScannerDevice} (hs : s.name ≠ n) :
    ∀ acc : List ScannerDevice,
      nameFilter n (insertScanner acc s) = nameFilter n acc := by
  intro acc
  induction acc with
  | nil =>
    show nameFilter n [s] = nameFilter n []
    rw [nameFilter_cons, if_neg hs]
  | cons a rest ih =>
    unfold insertScanner
    by_cases hn : a.name = s.name
    · rw [if_pos hn]
      have hu : (if isWIA s && !isWIA a then s else a).name ≠ n := by
        split_ifs
        · exact hs
        · rw [hn]; exact hs
      rw [nameFilter_cons, if_neg hu, nameFilter_cons, if_neg (by rw [hn]; exact hs)]
    · rw [if_neg hn, nameFilter_cons, nameFilter_cons]
      by_cases han : a.name = n <;> simp [han, ih]

theorem nameFilter_insertScanner_of_empty {n : String} {s : ScannerDevice}
    (hs : s.name = n) :
    ∀ acc : List ScannerDevice, nameFilter n acc = [] →
      nameFilter n (insertScanner acc s) = [s] := by
  intro acc
  induction acc with
  | nil =>
    intro _
    show nameFilter n [s] = [s]
    rw [nameFilter_cons, if_pos hs, nameFilter_nil]
  | cons a rest ih =>
    intro hemp
    rw [nameFilter_cons] at hemp
    by_cases han : a.name = n
    · rw [if_pos han] at hemp
      exact absurd hemp (List.cons_ne_nil _ _)
    · rw [if_neg han] at hemp
      unfold insertScanner
      by_cases hn : a.name = s.name
      · exact absurd (hn.trans hs) han
      · rw [if_neg hn, nameFilter_cons, if_neg han]
        exact ih hemp

theorem nameFilter_insertScanner_of_found {n : String} {s : ScannerDevice}
    (hs : s.name = n) :
    ∀ (acc : List ScannerDevice) (c : ScannerDevice) (cs : List ScannerDevice),
      nameFilter n acc = c :: cs →
      nameFilter n (insertScanner acc s) = (if isWIA s && !isWIA c then s else c) :: cs := by
  intro acc
  induction acc with
  | nil =>
    intro c cs h
    exact absurd h (by simp [nameFilter_nil])
  | cons a rest ih =>
    intro c cs h
    rw [nameFilter_cons] at h
    by_cases han : a.name = n
    · rw [if_pos han] at h
      have hac : a = c := (List.cons.injEq _ _ _ _ ▸ h).1
      have hrest : nameFilter n rest = cs := (List.cons.injEq _ _ _ _ ▸ h).2
      subst hac
      unfold insertScanner
      rw [if_pos (han.trans hs.symm)]
      have hu : (if isWIA s && !isWIA a then s else a).name = n := by
        split_ifs
        · exact hs
        · exact han
      rw [nameFilter_cons, if_pos hu, hrest]
    · rw [if_neg han] at h
      unfold insertScanner
      by_cases hn : a.name = s.name
      · exact absurd (hn.trans hs) han
      · rw [if_neg hn, nameFilter_cons, if_neg han]
        exact ih c cs h

theorem nameFilter_foldl_of_not_mem {n : String} :
    ∀ (l acc : List ScannerDevice), (∀ x ∈ l, x.name ≠ n) →
      nameFilter n (l.foldl insertScanner acc) = nameFilter n acc := by
  intro l
  induction l with
  | nil => intro acc _; rfl
  | cons s rest ih =>
    intro acc h
    rw [List.foldl_cons,
      ih _ fun x hx => h x (List.mem_cons_of_mem s hx),
      nameFilter_insertScanner_of_ne (h s (List.mem_cons_self s rest)) acc]

theorem insertScanner_pairwise {acc : List ScannerDevice} (s : ScannerDevice)
    (h : acc.Pairwise fun u v => u.name ≠ v.name) :
    (insertScanner acc s).Pairwise fun u v => u.name ≠ v.name := by
  induction acc with
  | nil => simp [insertScanner]
  | cons a rest ih =>
    rw [List.pairwise_cons] at h
    unfold insertScanner
    by_cases hn : a.name = s.name
    · rw [if_pos hn, List.pairwise_cons]
      refine ⟨fun v hv => ?_, h.2⟩
      have hav := h.1 v hv
      split_ifs
      · rw [← hn]; exact hav
      · exact hav
    · rw [if_neg hn, List.pairwise_cons]
      refine ⟨fun v hv => ?_, ih h.2⟩
      rcases mem_insertScanner hv with hv | hv
      · exact h.1 v hv
      · rw [hv]; exact hn
/-- Names of the records kept by the deduplication fold are pairwise
distinct, for any accumulator with pairwise-distinct names. -/
theorem foldl_insertScanner_pairwise :
    ∀ (l acc : List ScannerDevice),
      (acc.Pairwise fun u v => u.name ≠ v.name) →
      (l.foldl insertScanner acc).Pairwise fun u v => u.name ≠ v.name := by
  intro l
  induction l with
  | nil => intro acc h; exact h
  | cons s rest ih =>
    intro acc h
    rw [List.foldl_cons]
    exact ih _ (insertScanner_pairwise s h)

theorem dedupByName_pairwise (l : List ScannerDevice) :
    (dedupByName l).Pairwise fun u v => u.name ≠ v.name :=
  foldl_insertScanner_pairwise l [] (List.Pairwise.nil)

/-! ## C6: deduplication keeps the WIA record, else the first occurrence -/

/-- C6.  When exactly two records of the raw input share a display name
(`a` occurring before `b`, no other record bearing that name), the
deduplicated list retains exactly one record with that name: `b` when `b`
is WIA-origin and `a` is not, and otherwise the first occurrence `a`; and
the deduplicated output has pairwise distinct names. -/
theorem dedup_keeps_one_per_name (xs ys zs : List ScannerDevice)
    (a b : ScannerDevice) (hab : b.name = a.name)
    (hothers : ∀ c ∈ xs ++ ys ++ zs, c.name ≠ a.name) :
    nameFilter a.name (dedupByName (xs ++ a :: (ys ++ b :: zs))) =
      [if isWIA b && !isWIA a then b else a]
    ∧ (dedupByName (xs ++ a :: (ys ++ b :: zs))).Pairwise fun u v => u.name ≠ v.name := by
  refine ⟨?_, dedupByName_pairwise _⟩
  unfold dedupByName
  rw [List.foldl_append, List.foldl_cons, List.foldl_append, List.foldl_cons]
  have hxs : ∀ x ∈ xs, x.name ≠ a.name := fun x hx =>
    hothers x (by simp [hx])
  have hys : ∀ x ∈ ys, x.name ≠ a.name := fun x hx =>
    hothers x (by simp [hx])
  have hzs : ∀ x ∈ zs, x.name ≠ a.name := fun x hx =>
    hothers x (by simp [hx])
  have h1 : nameFilter a.name (xs.foldl insertScanner []) = [] :=
    nameFilter_foldl_of_not_mem xs [] hxs
  have h2 : nameFilter a.name (insertScanner (xs.foldl insertScanner []) a) = [a] :=
    nameFilter_insertScanner_of_empty rfl _ h1
  have h3 : nameFilter a.name
      (ys.foldl insertScanner (insertScanner (xs.foldl insertScanner []) a)) = [a] :=
    (nameFilter_foldl_of_not_mem ys _ hys).trans h2
  have h4 : nameFilter a.name
      (insertScanner
        (ys.foldl insertScanner (insertScanner (xs.foldl insertScanner []) a)) b) =
      [if isWIA b && !isWIA a then b else a] :=
    nameFilter_insertScanner_of_found hab _ a [] h3
  exact (nameFilter_foldl_of_not_mem zs _ hzs).trans h4

/-- Witness for C6 at concrete records: a PnP record followed by a WIA
record of the same name; the WIA record is retained. -/
theorem dedup_keeps_one_per_name_witness :
    nameFilter pnpTwin.name (dedupByName ([] ++ pnpTwin :: ([] ++ wiaTwin :: []))) =
      [if isWIA wiaTwin && !isWIA pnpTwin then wiaTwin else pnpTwin] :=
  (dedup_keeps_one_per_name [] [] [] pnpTwin wiaTwin rfl (by decide)).1

/-! ## C9: enumeration never fails -/

/-- C9.  `listScanners` resolves on every backend outcome and never
rejects: a Windows exec error or JSON-parse failure, a SANE version-probe
failure or listing failure, and SANE output none of whose lines parses
all resolve to the empty device list; and the `get-scanners` handler
never wraps an enumeration outcome in an error envelope — every envelope
it ever sends is a `scanners-list`. -/
theorem list_scanners_never_fails (msg out : String) :
    listScannersWin (WinListOutcome.execError msg) = []
    ∧ listScannersWin WinListOutcome.parseError = []
    ∧ listScannersSane SaneListOutcome.versionError = []
    ∧ listScannersSane SaneListOutcome.listError = []
    ∧ ((∀ l ∈ saneLines out, parseSANEDeviceLine l = none) →
        listScannersSane (SaneListOutcome.output out) = [])
    ∧ ∀ sess now sc env, env ∈ (handleGetScanners sess now sc).2 →
        ∃ d, env = Envelope.scannersList d := by
  refine ⟨rfl, rfl, rfl, rfl, ?_, ?_⟩
  · intro h
    simp only [listScannersSane]
    split
    · rfl
    · exact List.filterMap_eq_nil_iff.mpr h
  · intro sess now sc env henv
    unfold handleGetScanners at henv
    by_cases ht : now - sess.lastScannerRequest < SCANNER_REQUEST_THROTTLE
    · rw [if_pos ht] at henv
      exact absurd henv (List.not_mem_nil env)
    · rw [if_neg ht] at henv
      simp at henv
      exact ⟨_, henv⟩

/-- Witness for C9: a failed Windows listing and unparsable SANE output
both degrade to zero devices. -/
theorem list_scanners_never_fails_witness :
    listScannersWin (WinListOutcome.execError "command failed") = []
    ∧ listScannersSane (SaneListOutcome.output "garbage output") = [] :=
  ⟨(list_scanners_never_fails "command failed" "garbage output").1,
   (list_scanners_never_fails "command failed" "garbage output").2.2.2.2.1 (by decide)⟩

/-! ## C3: the sentinel device id and the start-scan path -/

/-- C3 counterexample.  A `start-scan` request with the sentinel id
`demo-scanner`, on a connection whose fresh enumeration finds a connected
WIA device, performs the enumeration (an external listing process),
substitutes the WIA device id, and spawns a real scan process; the demo
image is never read, and with empty process output the request even ends
in an error envelope rather than a successful `scan-complete`.  This
refutes both the claim that the handler never invokes an external
process for the sentinel id and that such a request always yields a
successful canned result. -/
theorem demo_scan_invokes_backend_counterexample :
    ScanEffect.listScannersCall ∈
      (handleStartScan (some "demo-scanner") [wiaConnectedDev]
        (DemoOutcome.ok "ZGVtbw==") ⟨none, "", ""⟩).1
    ∧ ScanEffect.execScanProcess (constructScanCommand "wia-1" "unused") ∈
      (handleStartScan (some "demo-scanner") [wiaConnectedDev]
        (DemoOutcome.ok "ZGVtbw==") ⟨none, "", ""⟩).1
    ∧ ScanEffect.demoImageRead ∉
      (handleStartScan (some "demo-scanner") [wiaConnectedDev]
        (DemoOutcome.ok "ZGVtbw==") ⟨none, "", ""⟩).1
    ∧ (handleStartScan (some "demo-scanner") [wiaConnectedDev]
        (DemoOutcome.ok "ZGVtbw==") ⟨none, "", ""⟩).2 =
      [Envelope.errorEnv "Scanning failed: Invalid image data received from scanner"] := by
  decide

theorem data_marker_append_ne_empty (bd : String) :
    ("data:image/jpeg;base64," ++ bd) ≠ "" := by
  intro h
  have hl : ("data:image/jpeg;base64," ++ bd).length = 0 := by rw [h]; rfl
  rw [String.length_append] at hl
  have h23 : ("data:image/jpeg;base64," : String).length = 23 := by decide
  omega

/-- C3 (amended).  `performScan` itself short-circuits the sentinel id to
the demo image and spawns no scan process; however the `start-scan`
handler always performs one fresh enumeration first, and only when that
enumeration finds no connected WIA device does the sentinel id reach the
short-circuit — in that case the effect trace is exactly the enumeration
plus the demo-image read, no scan process is spawned, and a successful
demo read yields the `scan-complete` envelope with the demo payload. -/
theorem demo_scan_short_circuit (scanners : List ScannerDevice)
    (demo : DemoOutcome) (proc : ProcResult)
    (hnoWIA : scanners.find? isConnectedWIA = none) :
    (performScanModel "demo-scanner" demo proc).1 = [ScanEffect.demoImageRead]
    ∧ (handleStartScan (some "demo-scanner") scanners demo proc).1 =
        [ScanEffect.listScannersCall, ScanEffect.demoImageRead]
    ∧ (∀ c, ScanEffect.execScanProcess c ∉
        (handleStartScan (some "demo-scanner") scanners demo proc).1)
    ∧ ∀ bd, demo = DemoOutcome.ok bd →
        (handleStartScan (some "demo-scanner") scanners demo proc).2 =
          [Envelope.scanComplete ("data:image/jpeg;base64," ++ bd)] := by
  have hres : resolveScanDeviceId "demo-scanner" scanners = "demo-scanner" := by
    unfold resolveScanDeviceId
    rw [if_neg (by decide), hnoWIA]
  have hmain : handleStartScan (some "demo-scanner") scanners demo proc =
      (ScanEffect.listScannersCall :: (performScanModel "demo-scanner" demo proc).1,
        match (performScanModel "demo-scanner" demo proc).2 with
        | .resolved b =>
          if b = "" then
            [Envelope.errorEnv (classifyInnerScanError "Scanner did not return any data")]
          else [Envelope.scanComplete b]
        | .rejected m => [Envelope.errorEnv (classifyInnerScanError m)]) := by
    simp only [handleStartScan]
    rw [if_neg (by decide : ¬("demo-scanner" : String) = ""), hres]
    rcases hps : (performScanModel "demo-scanner" demo proc).2 with b | m
    · by_cases hb : b = "" <;> simp [hps, hb]
    · simp [hps]
  cases demo with
  | ok bd =>
    have hps : performScanModel "demo-scanner" (DemoOutcome.ok bd) proc =
        ([ScanEffect.demoImageRead],
         ScanOutcome.resolved ("data:image/jpeg;base64," ++ bd)) := by
      simp [performScanModel]
    refine ⟨by rw [hps], ?_, ?_, ?_⟩
    · rw [hmain, hps]
    · intro c hc
      rw [hmain, hps] at hc
      simp at hc
    · intro bd' hbd'
      have : bd' = bd := by
        injection hbd' with h
        exact h.symm
      subst this
      rw [hmain, hps]
      simp [data_marker_append_ne_empty bd']
  | failed =>
    have hps : performScanModel "demo-scanner" DemoOutcome.failed proc =
        ([ScanEffect.demoImageRead],
         ScanOutcome.rejected "Failed to create demo scan") := by
      simp [performScanModel]
    refine ⟨by rw [hps], ?_, ?_, ?_⟩
    · rw [hmain, hps]
    · intro c hc
      rw [hmain, hps] at hc
      simp at hc
    · intro bd' hbd'
      exact absurd hbd' (by simp)

/-- Witness for C3 (amended): empty enumeration, successful demo read. -/
theorem demo_scan_short_circuit_witness :
    (performScanModel "demo-scanner" (DemoOutcome.ok "QQ==") ⟨none, "", ""⟩).1 =
      [ScanEffect.demoImageRead]
    ∧ (handleStartScan (some "demo-scanner") [] (DemoOutcome.ok "QQ==") ⟨none, "", ""⟩).2 =
      [Envelope.scanComplete ("data:image/jpeg;base64," ++ "QQ==")] :=
  ⟨(demo_scan_short_circuit [] (DemoOutcome.ok "QQ==") ⟨none, "", ""⟩ rfl).1,
   (demo_scan_short_circuit [] (DemoOutcome.ok "QQ==") ⟨none, "", ""⟩ rfl).2.2.2 "QQ==" rfl⟩

/-! ## C4: SANE scan payload comes from stdout, not from the output file -/

/-- C4 counterexample.  On the SANE backend the invocation built by
`performScan` names the fixed placeholder path `unused` (main.ts line 78)
— not a caller-specified real path — and the returned payload is the
base64 token matched in the process standard output, not a read-back of
the output file: the effect trace of the external branch is exactly the
process spawn, with no file read. -/
theorem sane_payload_from_stdout_counterexample :
    (performScanModel "pixma:04A91794_261A03" DemoOutcome.failed
      ⟨none, "data:image/jpeg;base64,QUJD", ""⟩).1 =
      [ScanEffect.execScanProcess
        (constructScanCommand "pixma:04A91794_261A03" "unused")]
    ∧ (performScanModel "pixma:04A91794_261A03" DemoOutcome.failed
        ⟨none, "data:image/jpeg;base64,QUJD", ""⟩).2 =
      ScanOutcome.resolved "data:image/jpeg;base64,QUJD"
    ∧ constructScanCommand "pixma:04A91794_261A03" "unused" =
      "scanimage -d " ++ squote ++ "pixma:04A91794_261A03" ++ squote ++
        " --format=jpeg --mode Color --resolution 300 --progress --output-file=" ++
        squote ++ "unused" ++ squote := by
  decide

/-- C4 (amended).  For every non-sentinel device id, `performScan` spawns
exactly the scanimage invocation targeting the placeholder output path
`unused` and settles through `scanCallbackOutcome`, which classifies the
process error or extracts the base64 token from the process standard
output; no branch ever reads the scan output file back. -/
theorem sane_scan_stdout_payload (deviceId : String) (demo : DemoOutcome)
    (proc : ProcResult) (h : deviceId ≠ "demo-scanner") :
    performScanModel deviceId demo proc =
      ([ScanEffect.execScanProcess (constructScanCommand deviceId "unused")],
       scanCallbackOutcome proc)
    ∧ ∀ p, ScanEffect.outputFileRead p ∉ (performScanModel deviceId demo proc).1 := by
  have hps : performScanModel deviceId demo proc =
      ([ScanEffect.execScanProcess (constructScanCommand deviceId "unused")],
       scanCallbackOutcome proc) := by
    simp [performScanModel, h]
  refine ⟨hps, fun p hp => ?_⟩
  rw [hps] at hp
  simp at hp

/-- Witness for C4 (amended) at a concrete SANE device id and a failed
process. -/
theorem sane_scan_stdout_payload_witness :
    performScanModel "pixma:04A91794_261A03" DemoOutcome.failed
        ⟨some "err", "", "boom"⟩ =
      ([ScanEffect.execScanProcess
          (constructScanCommand "pixma:04A91794_261A03" "unused")],
       scanCallbackOutcome ⟨some "err", "", "boom"⟩)
    ∧ ScanEffect.outputFileRead "unused" ∉
      (performScanModel "pixma:04A91794_261A03" DemoOutcome.failed
        ⟨some "err", "", "boom"⟩).1 :=
  ⟨(sane_scan_stdout_payload "pixma:04A91794_261A03" DemoOutcome.failed
      ⟨some "err", "", "boom"⟩ (by decide)).1,
   (sane_scan_stdout_payload "pixma:04A91794_261A03" DemoOutcome.failed
      ⟨some "err", "", "boom"⟩ (by decide)).2 "unused"⟩

end ScannerApp
